import Mathlib

/-!
Verification of the transactional data-access core of the
Recommender-Systems repository: SQL statement providers
(src/recsys/core/dal/sql/dataframe.py, src/recsys/core/dal/sql/job.py),
the entity id invariant (src/mlops_lab/core/workflow/base.py), the
DataSource entity (src/recsys/core/entity/datasource.py), the pipeline
runner (src/recsys/core/workflow/pipeline.py), the Sampler operator
(src/recsys/core/workflow/operator.py), and the Unit-of-Work /
Repository layer, whose implementation is modelled from the spec where
its source is not available.
-/

namespace Recsys

/-- A Python value as it flows through DTOs and SQL argument tuples:
the statement constructors copy these values verbatim, so their precise
type is irrelevant and they are modelled as an opaque-but-decidable sum. -/
inductive PyVal where
  | vNone : PyVal
  | vInt : Int → PyVal
  | vStr : String → PyVal
deriving DecidableEq, Repr

/-- A SQL statement object as built by the dataclasses in
src/recsys/core/dal/sql: a statement text and an argument tuple. -/
structure SQLStmt where
  sql : String
  args : List PyVal
deriving DecidableEq, Repr

/-- Converts an optional integer id (None until persisted) to the Python
value placed in argument tuples. -/
def pyOfId : Option Int → PyVal
  | none => PyVal.vNone
  | some n => PyVal.vInt n

/-- The DataFrame DTO as consumed by the statements in
src/recsys/core/dal/sql/dataframe.py: the fields read by
InsertDataFrame/UpdateDataFrame. -/
structure DataFrameDTO where
  id : Option Int
  name : PyVal
  description : PyVal
  datasource_id : PyVal
  mode : PyVal
  stage : PyVal
  size : PyVal
  nrows : PyVal
  ncols : PyVal
  nulls : PyVal
  pct_nulls : PyVal
  parent_id : PyVal
  created : PyVal
  modified : PyVal
deriving DecidableEq, Repr

/-- Embeds InsertDataFrame (src/recsys/core/dal/sql/dataframe.py lines
75-96): fixed statement text listing thirteen columns (id omitted), args
built from the DTO fields in __post_init__. -/
def InsertDataFrame (dto : DataFrameDTO) : SQLStmt :=
  { sql := "INSERT INTO dataframe (name, description, datasource_id, mode, stage, size, nrows, ncols, nulls, pct_nulls, parent_id, created, modified) VALUES (%s, %s, %s, %s, %s, %s, %s, %s, %s, %s, %s, %s, %s);"
    args := [dto.name, dto.description, dto.datasource_id, dto.mode, dto.stage,
             dto.size, dto.nrows, dto.ncols, dto.nulls, dto.pct_nulls,
             dto.parent_id, dto.created, dto.modified] }

/-- Embeds UpdateDataFrame (src/recsys/core/dal/sql/dataframe.py lines
102-124): fixed statement text keyed on id, args ending with dto.id. -/
def UpdateDataFrame (dto : DataFrameDTO) : SQLStmt :=
  { sql := "UPDATE dataframe SET name = %s, description = %s, datasource_id = %s, mode = %s, stage = %s, size = %s, nrows = %s, ncols = %s, nulls = %s, pct_nulls = %s, parent_id = %s, created = %s, modified = %s WHERE id = %s;"
    args := [dto.name, dto.description, dto.datasource_id, dto.mode, dto.stage,
             dto.size, dto.nrows, dto.ncols, dto.nulls, dto.pct_nulls,
             dto.parent_id, dto.created, dto.modified, pyOfId dto.id] }

/-- Embeds SelectDataFrame (src/recsys/core/dal/sql/dataframe.py). -/
def SelectDataFrame (id : Int) : SQLStmt :=
  { sql := "SELECT * FROM dataframe WHERE id = %s;"
    args := [PyVal.vInt id] }

/-- Embeds SelectDataFrameByParentId (src/recsys/core/dal/sql/dataframe.py). -/
def SelectDataFrameByParentId (dataset_id : Int) : SQLStmt :=
  { sql := "SELECT * FROM dataframe WHERE dataset_id = %s;"
    args := [PyVal.vInt dataset_id] }

/-- Embeds SelectDataFrameByNameMode (src/recsys/core/dal/sql/dataframe.py). -/
def SelectDataFrameByNameMode (name : String) (mode : String) : SQLStmt :=
  { sql := "SELECT * FROM dataframe WHERE name = %s AND mode = %s;"
    args := [PyVal.vStr name, PyVal.vStr mode] }

/-- Embeds DataFrameExists (src/recsys/core/dal/sql/dataframe.py). -/
def DataFrameExists (id : Int) : SQLStmt :=
  { sql := "SELECT COUNT(*) FROM dataframe WHERE id = %s;"
    args := [PyVal.vInt id] }

/-- Embeds DeleteDataFrame (src/recsys/core/dal/sql/dataframe.py). -/
def DeleteDataFrame (id : Int) : SQLStmt :=
  { sql := "DELETE FROM dataframe WHERE id = %s;"
    args := [PyVal.vInt id] }

/-- The Job DTO as consumed by the statements in
src/recsys/core/dal/sql/job.py. -/
structure JobDTO where
  id : Option Int
  oid : PyVal
  name : PyVal
  description : PyVal
  state : PyVal
deriving DecidableEq, Repr

/-- Embeds InsertJob (src/recsys/core/dal/sql/job.py lines 84-96). -/
def InsertJob (dto : JobDTO) : SQLStmt :=
  { sql := "INSERT INTO job (oid, name, description, state) VALUES (%s, %s, %s, %s);"
    args := [dto.oid, dto.name, dto.description, dto.state] }

/-- Embeds UpdateJob (src/recsys/core/dal/sql/job.py lines 103-115). -/
def UpdateJob (dto : JobDTO) : SQLStmt :=
  { sql := "UPDATE job SET oid = %s, name = %s, description = %s, state = %s WHERE id = %s;"
    args := [dto.oid, dto.name, dto.description, dto.state, pyOfId dto.id] }

/-- Embeds SelectJob (src/recsys/core/dal/sql/job.py). -/
def SelectJob (id : Int) : SQLStmt :=
  { sql := "SELECT * FROM job WHERE id = %s;"
    args := [PyVal.vInt id] }

/-- Embeds SelectJobByName (src/recsys/core/dal/sql/job.py). -/
def SelectJobByName (name : String) : SQLStmt :=
  { sql := "SELECT * FROM job WHERE name = %s;"
    args := [PyVal.vStr name] }

/-- Embeds JobExists (src/recsys/core/dal/sql/job.py). -/
def JobExists (id : Int) : SQLStmt :=
  { sql := "SELECT EXISTS(SELECT 1 FROM job WHERE id = %s LIMIT 1);"
    args := [PyVal.vInt id] }

/-- Embeds DeleteJob (src/recsys/core/dal/sql/job.py). -/
def DeleteJob (id : Int) : SQLStmt :=
  { sql := "DELETE FROM job WHERE id = %s;"
    args := [PyVal.vInt id] }

/-- Embeds JobTableExists (src/recsys/core/dal/sql/job.py lines 56-66):
its __post_init__ reads the MODE environment variable and builds the
statement text with an f-string, splicing the mode into the schema name;
the args tuple stays empty. -/
def JobTableExists (mode : String) : SQLStmt :=
  { sql := "SELECT COUNT(TABLE_NAME) FROM information_schema.TABLES WHERE TABLE_SCHEMA LIKE \x27recsys_" ++ mode ++ "_events\x27 AND TABLE_NAME = \x27job\x27;"
    args := [] }

/-- Embeds DataFrameTableExists (src/recsys/core/dal/sql/dataframe.py
lines 53-58): a constant statement text, no interpolation. -/
def DataFrameTableExists : SQLStmt :=
  { sql := "SELECT COUNT(TABLE_NAME) FROM information_schema.TABLES WHERE TABLE_NAME = \x27dataframe\x27;"
    args := [] }

/-- The observable state of the shared database connection: the list of
statements executed on it and counters of completed commit and rollback
calls. -/
structure Connection where
  executed : List SQLStmt
  commits : Nat
  rollbacks : Nat
deriving DecidableEq, Repr

/-- Modelled from the spec: Connection.execute issues one statement on
the shared connection without committing (the Connection class itself is
not under src/; the spec describes it as execute/begin/commit/rollback). -/
def Connection.execute (conn : Connection) (stmt : SQLStmt) : Connection :=
  { conn with executed := conn.executed ++ [stmt] }

/-- Modelled from the spec: Repository.add for the DataFrame repository
(the repository classes are not under src/, only their statements and
tests are). Per the spec it inserts when entity.id is None — using the
InsertDataFrame statement embedded from the source, which omits id so
the store assigns it — and otherwise updates with UpdateDataFrame keyed
on the id; it returns the entity with id populated on insert, and issues
exactly one write without committing. -/
def repoAdd (dto : DataFrameDTO) (nextId : Int) (conn : Connection) :
    DataFrameDTO × Connection :=
  match dto.id with
  | none => ({ dto with id := some nextId }, conn.execute (InsertDataFrame dto))
  | some _ => (dto, conn.execute (UpdateDataFrame dto))

/-- A sample not-yet-persisted DataFrame DTO for concrete runs. -/
def dfDTO0 : DataFrameDTO :=
  { id := none, name := PyVal.vStr "ratings", description := PyVal.vNone,
    datasource_id := PyVal.vInt 1, mode := PyVal.vStr "prod",
    stage := PyVal.vStr "staged", size := PyVal.vInt 10, nrows := PyVal.vInt 100,
    ncols := PyVal.vInt 4, nulls := PyVal.vInt 0, pct_nulls := PyVal.vInt 0,
    parent_id := PyVal.vNone, created := PyVal.vNone, modified := PyVal.vNone }

/-- A fresh connection with nothing executed and no terminal actions. -/
def connEmpty : Connection :=
  { executed := [], commits := 0, rollbacks := 0 }

/-- A Python-level error raised by entity code. -/
inductive PyError where
  | typeError : PyError
deriving DecidableEq, Repr

/-- Embeds the Process.id setter (src/mlops_lab/core/workflow/base.py
lines 64-71): when the stored id is None the argument is stored; when it
differs from the stored id a TypeError is raised and the stored id is
kept; otherwise nothing changes. Returns the resulting stored id and the
raised error, if any. -/
def processSetId (cur : Option Int) (idArg : Option Int) :
    Option Int × Option PyError :=
  match cur with
  | none => (idArg, none)
  | some i => if idArg = some i then (some i, none) else (some i, some PyError.typeError)

/-- An entity handled by the file repository of the Unit-of-Work tests:
identity (None until persisted) plus a payload name. -/
structure FileEntity where
  fid : Option Nat
  name : String
deriving DecidableEq, Repr

/-- The persistent store seen through one connection: rows already
committed, rows written inside the open transaction but not yet
committed, and the next auto-assigned primary key. -/
structure Store where
  committed : List (Nat × FileEntity)
  pending : List (Nat × FileEntity)
  nextId : Nat
deriving DecidableEq, Repr

/-- Modelled from the spec: starting a transaction on scope entry
(begin); the open transaction buffer starts empty. -/
def Store.begin (s : Store) : Store :=
  { s with pending := [] }

/-- Modelled from the spec: a repository add inside the scope buffers
one insert against the shared connection; the store assigns the id and
the returned entity has it populated. -/
def Store.addEntity (s : Store) (e : FileEntity) : FileEntity × Store :=
  let i := s.nextId
  let e2 := { e with fid := some i }
  (e2, { s with pending := s.pending ++ [(i, e2)], nextId := i + 1 })

/-- Modelled from the spec: commit applies every buffered write to the
committed store as a unit. -/
def Store.commit (s : Store) : Store :=
  { s with committed := s.committed ++ s.pending, pending := [] }

/-- Modelled from the spec: rollback reverts every buffered write as a
unit, leaving the committed store untouched. -/
def Store.rollback (s : Store) : Store :=
  { s with pending := [] }

/-- Modelled from the spec: Repository.exists(id) after the scope ends
reads the committed store. -/
def Store.existsId (s : Store) (i : Nat) : Bool :=
  s.committed.any (fun p => p.1 = i)

/-- Modelled from the spec: Repository.get(id) after the scope ends;
None models the NotFoundError raised when no row matches. -/
def Store.getId (s : Store) (i : Nat) : Option FileEntity :=
  (s.committed.find? (fun p => p.1 = i)).map (fun p => p.2)

/-- How a Unit-of-Work scope body ends: normal fall-through, an explicit
rollback() call as the last body action, or the body raising. -/
inductive ScopeEnd where
  | normalExit : ScopeEnd
  | explicitRollback : ScopeEnd
  | bodyRaises : ScopeEnd
deriving DecidableEq, Repr

/-- A completed terminal action on the connection. -/
inductive TAction where
  | commit : TAction
  | rollback : TAction
deriving DecidableEq, Repr

/-- The error propagated out of a Unit-of-Work scope. -/
inductive UowError where
  | bodyFailure : UowError
  | commitFailure : UowError
deriving DecidableEq, Repr

/-- Adds a list of entities through the repository inside one scope,
returning the (id, entity) pairs handed back by each add call and the
resulting store. -/
def addAll : List FileEntity → Store → List (Nat × FileEntity) × Store
  | [], s => ([], s)
  | e :: rest, s =>
    let (e2, s2) := s.addEntity e
    let (ps, s3) := addAll rest s2
    ((s.nextId, e2) :: ps, s3)

/-- Modelled from the spec: one Unit-of-Work scope over a body that
performs the given add calls and then ends as described. Entering
begins a transaction; an explicit rollback() reverts the buffered
writes, so the scope does not commit afterwards; a raising body rolls
back on exit and propagates the failure; a normal exit commits, and if
the commit itself fails the Unit of Work rolls back before propagating
the commit error. The returned trace lists the completed terminal
actions on the connection in order. -/
def runScope (adds : List FileEntity) (ending : ScopeEnd) (commitFails : Bool)
    (s0 : Store) : Store × List TAction × List (Nat × FileEntity) × Option UowError :=
  let s1 := s0.begin
  let ps := (addAll adds s1).1
  let s2 := (addAll adds s1).2
  match ending with
  | ScopeEnd.explicitRollback => (s2.rollback, [TAction.rollback], ps, none)
  | ScopeEnd.bodyRaises => (s2.rollback, [TAction.rollback], ps, some UowError.bodyFailure)
  | ScopeEnd.normalExit =>
    if commitFails then
      (s2.rollback, [TAction.rollback], ps, some UowError.commitFailure)
    else
      (s2.commit, [TAction.commit], ps, none)

/-- The error raised by UnitOfWork.get_repo on an unregistered name. -/
inductive RepoLookupError where
  | unknownRepository : RepoLookupError
deriving DecidableEq, Repr

/-- Modelled from the spec: UnitOfWork.get_repo(name) looks the name up
in the Repository Registry (a mapping from logical name to repository
instance, here an association list over an arbitrary repository type)
and fails fast with UnknownRepositoryError when the name is not
registered; it never returns a default. -/
def getRepo {ρ : Type} (registry : List (String × ρ)) (name : String) :
    Except RepoLookupError ρ :=
  match registry.find? (fun p => p.1 = name) with
  | some p => Except.ok p.2
  | none => Except.error RepoLookupError.unknownRepository

/-- The five not-yet-persisted file entities used by the Unit-of-Work
tests (tests/test_core/test_repo/test_uow.py adds five files and then
checks ids 1 through 5). -/
def files5 : List FileEntity :=
  [⟨none, "f1"⟩, ⟨none, "f2"⟩, ⟨none, "f3"⟩, ⟨none, "f4"⟩, ⟨none, "f5"⟩]

/-- A freshly reset store: no rows, auto-increment starting at 1. -/
def emptyStore : Store :=
  ⟨[], [], 1⟩

/-- The DataSource entity (src/recsys/core/entity/datasource.py):
identity, business fields, and the lifecycle timestamps set by the base
Entity constructor (datetime.now(), modelled as a Nat tick). -/
structure DataSource where
  id : Option Int
  name : String
  description : Option String
  publisher : String
  website : String
  url : String
  created : Nat
  modified : Nat
deriving DecidableEq, Repr

/-- The DataSource DTO exactly as built by DataSource.as_dto: six
fields, no timestamps. -/
structure DataSourceDTO where
  id : Option Int
  name : String
  publisher : String
  description : Option String
  website : String
  url : String
deriving DecidableEq, Repr

/-- Embeds DataSource.as_dto (src/recsys/core/entity/datasource.py lines
76-83). -/
def DataSource.as_dto (e : DataSource) : DataSourceDTO :=
  { id := e.id, name := e.name, publisher := e.publisher,
    description := e.description, website := e.website, url := e.url }

/-- Embeds DataSource._from_dto (src/recsys/core/entity/datasource.py
lines 86-94): re-runs the base constructor, which stamps created and
modified with the current time, then copies the DTO fields. -/
def DataSource.from_dto (dto : DataSourceDTO) (now : Nat) : DataSource :=
  { id := dto.id, name := dto.name, description := dto.description,
    publisher := dto.publisher, website := dto.website, url := dto.url,
    created := now, modified := now }

/-- Embeds DataSource.__eq__ (src/recsys/core/entity/datasource.py lines
48-58): field-wise comparison of name, publisher, description, website
and url; id and the timestamps do not participate. -/
def DataSource.eq (a b : DataSource) : Bool :=
  a.name = b.name && a.publisher = b.publisher && a.description = b.description
    && a.website = b.website && a.url = b.url

/-- The datasource table: rows keyed by primary key, plus the next
auto-assigned key. -/
structure DSStore where
  rows : List (Int × DataSourceDTO)
  nextId : Int
deriving DecidableEq, Repr

/-- Replaces the row keyed by the given id, leaving the table unchanged
when no row matches (SQL UPDATE semantics). -/
def DSStore.updateRow (st : DSStore) (i : Int) (row : DataSourceDTO) : DSStore :=
  { st with rows := st.rows.map (fun p => if p.1 = i then (i, row) else p) }

/-- Modelled from the spec: Repository.add for the datasource repository
(the repository classes are not under src/). When entity.id is None the
insert statement omits the id, the store assigns the next key and the
returned entity carries it; otherwise the update statement rewrites the
row keyed on the id. The row holds the DTO produced by as_dto. -/
def dsAdd (e : DataSource) (st : DSStore) : DataSource × DSStore :=
  match e.id with
  | none =>
    let e2 := { e with id := some st.nextId }
    (e2, { rows := st.rows ++ [(st.nextId, e2.as_dto)], nextId := st.nextId + 1 })
  | some i => (e, st.updateRow i e.as_dto)

/-- Modelled from the spec: Repository.get for the datasource repository
reconstructs the entity from the stored row via _from_dto at the current
time; None models NotFoundError. -/
def dsGet (st : DSStore) (i : Int) (now : Nat) : Option DataSource :=
  (st.rows.find? (fun p => p.1 = i)).map (fun p => DataSource.from_dto p.2 now)

/-- Embeds Pipeline.add_task (src/recsys/core/workflow/pipeline.py lines
39-40): assignment into an OrderedDict keyed by task name — a fresh key
is appended at the end, an existing key has its value replaced in
place. -/
def dictInsert {τ : Type} (k : String) (v : τ) :
    List (String × τ) → List (String × τ)
  | [] => [(k, v)]
  | p :: rest => if p.1 = k then (k, v) :: rest else p :: dictInsert k v rest

/-- Embeds DataPipeline.run (src/recsys/core/workflow/pipeline.py lines
54-60) over the remaining tasks: each task receives the current data and
the unit of work; a falsy (None) result leaves the data unchanged
(data = result or data). Also returns the names of the tasks executed,
in execution order. -/
def pipelineRun {α υ : Type} (tasks : List (String × (Option α → υ → Option α)))
    (uow : υ) (data : Option α) : Option α × List String :=
  match tasks with
  | [] => (data, [])
  | t :: rest =>
    let result := t.2 data uow
    let d2 := match result with | none => data | some v => some v
    let (dfin, tr) := pipelineRun rest uow d2
    (dfin, t.1 :: tr)

/-- Embeds DataPipeline.run from the start of the pipeline: the data
slot self._data is initialised to None by the constructor. -/
def dataPipelineRun {α υ : Type} (tasks : List (String × (Option α → υ → Option α)))
    (uow : υ) : Option α × List String :=
  pipelineRun tasks uow none

/-- A concrete task that returns the value 5 whatever it receives. -/
def taskFive : Option Nat → Unit → Option Nat := fun _ _ => some 5

/-- A concrete task that returns None (falsy) whatever it receives. -/
def taskNone : Option Nat → Unit → Option Nat := fun _ _ => none

/-- An error raised by Sampler (src/recsys/core/workflow/operator.py). -/
inductive SamplerError where
  | valueError : SamplerError
  | keyError : SamplerError
deriving DecidableEq, Repr

/-- A column-oriented pandas DataFrame: named columns of values. -/
abbrev DF := List (String × List PyVal)

/-- Column access data[c]: None models the KeyError pandas raises when
the column is absent. -/
def getCol (df : DF) (c : String) : Option (List PyVal) :=
  (df.find? (fun p => p.1 = c)).map (fun p => p.2)

/-- The unique values of a column in first-occurrence order
(pandas Series.unique), with an accumulator of values already seen. -/
def uniqueAux (seen : List PyVal) : List PyVal → List PyVal
  | [] => []
  | a :: rest => if a ∈ seen then uniqueAux seen rest else a :: uniqueAux (a :: seen) rest

/-- Python int(): truncation of a rational toward zero. -/
def pyInt (q : Rat) : Int :=
  Int.tdiv q.num q.den

/-- Keeps the values whose mask entry is true (DataFrame.loc with a
boolean mask, applied to one column). -/
def applyMask (mask : List Bool) (vals : List PyVal) : List PyVal :=
  ((vals.zip mask).filter (fun p => p.2)).map (fun p => p.1)

/-- Embeds Sampler._sample_by_cluster (src/recsys/core/workflow/
operator.py lines 168-189): frac equal to 1 returns the data unchanged;
frac above 1 raises ValueError; otherwise the cluster column is read
(KeyError when absent), its unique values counted, the sample size is
int(n_clusters * frac), rng.choice draws that many clusters — the
pseudo-random generator is passed in as the choice function — and the
rows whose cluster is among the drawn ones are kept. -/
def sampleByCluster (cluster_by : String) (frac : Rat)
    (choice : List PyVal → Int → List PyVal) (data : DF) : Except SamplerError DF :=
  if frac = 1 then Except.ok data
  else if 1 < frac then Except.error SamplerError.valueError
  else
    match getCol data cluster_by with
    | none => Except.error SamplerError.keyError
    | some colVals =>
      let clusters := uniqueAux [] colVals
      let size := pyInt ((clusters.length : Rat) * frac)
      let sample_clusters := choice clusters size
      let mask := colVals.map (fun v => sample_clusters.contains v)
      Except.ok (data.map (fun c => (c.1, applyMask mask c.2)))

/-- Embeds Sampler.execute (src/recsys/core/workflow/operator.py lines
156-166): cluster sampling when the cluster flag is set, otherwise
simple random sampling via DataFrame.sample, passed in abstractly. -/
def samplerExecute (cluster : Bool) (cluster_by : String) (frac : Rat)
    (choice : List PyVal → Int → List PyVal) (simpleSample : DF → DF)
    (data : DF) : Except SamplerError DF :=
  if cluster then sampleByCluster cluster_by frac choice data
  else Except.ok (simpleSample data)

theorem addAll_committed (es : List FileEntity) (s : Store) :
    (addAll es s).2.committed = s.committed := by
  induction es generalizing s with
  | nil => rfl
  | cons e rest ih => simp [addAll, Store.addEntity, ih]

theorem addAll_pending (es : List FileEntity) (s : Store) :
    (addAll es s).2.pending = s.pending ++ (addAll es s).1 := by
  induction es generalizing s with
  | nil => simp [addAll]
  | cons e rest ih => simp [addAll, Store.addEntity, ih]

theorem addAll_ids_lower_bound (es : List FileEntity) (s : Store) :
    ∀ p ∈ (addAll es s).1, s.nextId ≤ p.1 := by
  induction es generalizing s with
  | nil => intro p hp; simp [addAll] at hp
  | cons e rest ih =>
    intro p hp
    simp only [addAll, Store.addEntity, List.mem_cons] at hp
    rcases hp with h | h
    · subst h; exact Nat.le_refl _
    · have := ih _ p h
      simp only [Store.addEntity] at this
      omega

theorem addAll_fid_populated (es : List FileEntity) (s : Store) :
    ∀ p ∈ (addAll es s).1, p.2.fid = some p.1 := by
  induction es generalizing s with
  | nil => intro p hp; simp [addAll] at hp
  | cons e rest ih =>
    intro p hp
    simp only [addAll, Store.addEntity, List.mem_cons] at hp
    rcases hp with h | h
    · subst h; rfl
    · exact ih _ p h

/-- C1: every Repository.add performed inside one Unit-of-Work scope
that ends with an explicit rollback() is invisible afterwards — the
committed store is exactly what it was before the scope, and for each
added entity exists(id) is false and get(id) fails — provided the store
starts with its auto-increment key above every committed row (no partial
subset of the writes remains). -/
theorem claim_C1_rollback_reverts_all_adds (adds : List FileEntity) (s0 : Store)
    (h : ∀ q ∈ s0.committed, q.1 < s0.nextId) :
    (runScope adds ScopeEnd.explicitRollback false s0).1.committed = s0.committed ∧
    ∀ p ∈ (runScope adds ScopeEnd.explicitRollback false s0).2.2.1,
      (runScope adds ScopeEnd.explicitRollback false s0).1.existsId p.1 = false ∧
      (runScope adds ScopeEnd.explicitRollback false s0).1.getId p.1 = none := by
  have hcom : (runScope adds ScopeEnd.explicitRollback false s0).1.committed
      = s0.committed := by
    simp [runScope, Store.rollback, addAll_committed, Store.begin]
  refine ⟨hcom, ?_⟩
  intro p hp
  have hps : (runScope adds ScopeEnd.explicitRollback false s0).2.2.1
      = (addAll adds s0.begin).1 := by
    simp [runScope]
  rw [hps] at hp
  have hid : s0.nextId ≤ p.1 := by
    have := addAll_ids_lower_bound adds s0.begin p hp
    simpa [Store.begin] using this
  have hnot : ∀ q ∈ (runScope adds ScopeEnd.explicitRollback false s0).1.committed,
      ¬ (q.1 = p.1) := by
    intro q hq
    rw [hcom] at hq
    have := h q hq
    omega
  constructor
  · simp only [Store.existsId]
    rw [List.any_eq_false]
    intro q hq
    simpa using hnot q hq
  · simp only [Store.getId]
    rw [List.find?_eq_none.mpr (fun q hq => by simpa using hnot q hq)]
    rfl

/-- C2: every Repository.add performed inside one Unit-of-Work scope
that exits normally is visible after the scope ends — exists(id) is true
and get(id) succeeds for each assigned id — and every entity returned by
add has its id populated. -/
theorem claim_C2_normal_exit_persists_adds (adds : List FileEntity) (s0 : Store) :
    ∀ p ∈ (runScope adds ScopeEnd.normalExit false s0).2.2.1,
      (runScope adds ScopeEnd.normalExit false s0).1.existsId p.1 = true ∧
      ((runScope adds ScopeEnd.normalExit false s0).1.getId p.1).isSome = true ∧
      p.2.fid = some p.1 := by
  intro p hp
  have hps : (runScope adds ScopeEnd.normalExit false s0).2.2.1
      = (addAll adds s0.begin).1 := by
    simp [runScope]
  rw [hps] at hp
  have hcom : (runScope adds ScopeEnd.normalExit false s0).1.committed
      = s0.committed ++ (addAll adds s0.begin).1 := by
    have hpend := addAll_pending adds s0.begin
    simp only [runScope, Store.commit, addAll_committed, Store.begin] at *
    simp [hpend]
  have hmem : p ∈ (runScope adds ScopeEnd.normalExit false s0).1.committed := by
    rw [hcom]
    exact List.mem_append_right _ hp
  refine ⟨?_, ?_, addAll_fid_populated adds s0.begin p hp⟩
  · simp only [Store.existsId]
    rw [List.any_eq_true]
    exact ⟨p, hmem, by simp⟩
  · simp only [Store.getId]
    have : ((runScope adds ScopeEnd.normalExit false s0).1.committed.find?
        (fun q => q.1 = p.1)).isSome = true := by
      rw [List.find?_isSome]
      exact ⟨p, hmem, by simp⟩
    rcases Option.isSome_iff_exists.mp this with ⟨q, hq⟩
    simp [hq]

/-- C3: every execution path through a Unit-of-Work scope — normal
exit, explicit rollback(), a raising body, or a failing commit — pairs
scope entry with exactly one completed terminal action on the
connection: never zero and never two. -/
theorem claim_C3_exactly_one_terminal_action (adds : List FileEntity)
    (ending : ScopeEnd) (commitFails : Bool) (s0 : Store) :
    (runScope adds ending commitFails s0).2.1.length = 1 := by
  cases ending <;> cases commitFails <;> simp [runScope]

/-- Witness for C1 at the concrete test scenario: five fresh files added
to a reset store and rolled back; nothing is committed and every
assigned id is invisible. -/
theorem claim_C1_witness :
    (∀ q ∈ emptyStore.committed, q.1 < emptyStore.nextId) ∧
    ((runScope files5 ScopeEnd.explicitRollback false emptyStore).1.committed
        = emptyStore.committed ∧
     ∀ p ∈ (runScope files5 ScopeEnd.explicitRollback false emptyStore).2.2.1,
       (runScope files5 ScopeEnd.explicitRollback false emptyStore).1.existsId p.1 = false ∧
       (runScope files5 ScopeEnd.explicitRollback false emptyStore).1.getId p.1 = none) :=
  ⟨by decide, claim_C1_rollback_reverts_all_adds files5 emptyStore (by decide)⟩

/-- Witness for C2 at the concrete test scenario: five fresh files added
to a reset store, normal exit; the first assigned pair is in the run's
output and is visible with id populated. -/
theorem claim_C2_witness :
    ((1, (⟨some 1, "f1"⟩ : FileEntity))
        ∈ (runScope files5 ScopeEnd.normalExit false emptyStore).2.2.1) ∧
    ((runScope files5 ScopeEnd.normalExit false emptyStore).1.existsId 1 = true ∧
     ((runScope files5 ScopeEnd.normalExit false emptyStore).1.getId 1).isSome = true ∧
     (⟨some 1, "f1"⟩ : FileEntity).fid = some 1) :=
  ⟨by decide,
   claim_C2_normal_exit_persists_adds files5 emptyStore (1, ⟨some 1, "f1"⟩) (by decide)⟩

/-- C4: the entity id attribute (Process.id setter,
src/mlops_lab/core/workflow/base.py) is assigned at most once — a None
id stores the argument, re-assigning the same value succeeds and changes
nothing, and re-assigning a different value raises TypeError and leaves
the original id unchanged. -/
theorem claim_C4_id_assigned_once (idArg : Option Int) (i : Int) :
    processSetId none idArg = (idArg, none) ∧
    processSetId (some i) (some i) = (some i, none) ∧
    (idArg ≠ some i →
      processSetId (some i) idArg = (some i, some PyError.typeError)) := by
  refine ⟨rfl, by simp [processSetId], ?_⟩
  intro hne
  simp [processSetId, hne]

/-- Witness for C4: re-assigning id 4 over id 3 raises TypeError and
keeps 3. -/
theorem claim_C4_witness :
    ((some 4 : Option Int) ≠ some 3) ∧
    processSetId (some 3) (some 4) = (some 3, some PyError.typeError) :=
  ⟨by decide, (claim_C4_id_assigned_once (some 4) 3).2.2 (by decide)⟩

/-- C5: UnitOfWork.get_repo fails with UnknownRepositoryError on every
unregistered name — never yielding a repository — and on every
registered name returns a repository bound to an entry of the registry
under that name. -/
theorem claim_C5_get_repo_total {ρ : Type} (registry : List (String × ρ)) (name : String) :
    (name ∉ registry.map Prod.fst →
      getRepo registry name = Except.error RepoLookupError.unknownRepository) ∧
    (name ∈ registry.map Prod.fst →
      ∃ r, getRepo registry name = Except.ok r ∧ (name, r) ∈ registry) := by
  constructor
  · intro hn
    unfold getRepo
    cases hfind : registry.find? (fun p => p.1 = name) with
    | none => rfl
    | some p =>
      exfalso
      have hmem := List.mem_of_find?_eq_some hfind
      have hpred := List.find?_some hfind
      simp only [decide_eq_true_eq] at hpred
      exact hn (by rw [← hpred]; exact List.mem_map_of_mem Prod.fst hmem)
  · intro hmem
    unfold getRepo
    cases hfind : registry.find? (fun p => p.1 = name) with
    | none =>
      exfalso
      rcases List.mem_map.mp hmem with ⟨p, hp, hfst⟩
      have := List.find?_eq_none.mp hfind p hp
      simp [hfst] at this
    | some p =>
      have hpred := List.find?_some hfind
      have hmem2 := List.mem_of_find?_eq_some hfind
      simp only [decide_eq_true_eq] at hpred
      refine ⟨p.2, rfl, ?_⟩
      have : (name, p.2) = p := by
        rw [← hpred]
      rwa [this]

/-- Witness for C5: in a registry holding file and dataset repositories,
an unregistered name fails with UnknownRepositoryError and the
registered name file resolves to its entry. -/
theorem claim_C5_witness :
    ("nonexistent" ∉ ([("file", 0), ("dataset", 1)] : List (String × Nat)).map Prod.fst) ∧
    getRepo ([("file", 0), ("dataset", 1)] : List (String × Nat)) "nonexistent"
      = Except.error RepoLookupError.unknownRepository ∧
    ("file" ∈ ([("file", 0), ("dataset", 1)] : List (String × Nat)).map Prod.fst) ∧
    (∃ r, getRepo ([("file", 0), ("dataset", 1)] : List (String × Nat)) "file"
      = Except.ok r ∧ ("file", r) ∈ ([("file", 0), ("dataset", 1)] : List (String × Nat))) :=
  ⟨by decide,
   (claim_C5_get_repo_total [("file", 0), ("dataset", 1)] "nonexistent").1 (by decide),
   by decide,
   (claim_C5_get_repo_total [("file", 0), ("dataset", 1)] "file").2 (by decide)⟩

/-- C6: Repository.add issues the insert statement — whose text and
args omit the id, so the store assigns it — when the entity id is None,
returning the entity with id populated; otherwise it issues the update
statement whose args end with the id it is keyed on; in both cases it
executes exactly one statement and never commits or rolls back. -/
theorem claim_C6_add_insert_or_update (dto : DataFrameDTO) (nextId : Int)
    (conn : Connection) :
    (dto.id = none →
      (repoAdd dto nextId conn).2.executed = conn.executed ++ [InsertDataFrame dto] ∧
      (∀ x, InsertDataFrame { dto with id := x } = InsertDataFrame dto) ∧
      (repoAdd dto nextId conn).1.id = some nextId) ∧
    (∀ i, dto.id = some i →
      (repoAdd dto nextId conn).2.executed = conn.executed ++ [UpdateDataFrame dto] ∧
      (UpdateDataFrame dto).args.getLast? = some (PyVal.vInt i)) ∧
    ((repoAdd dto nextId conn).2.commits = conn.commits ∧
     (repoAdd dto nextId conn).2.rollbacks = conn.rollbacks) := by
  refine ⟨?_, ?_, ?_⟩
  · intro h
    refine ⟨by simp [repoAdd, h, Connection.execute], fun x => rfl, by simp [repoAdd, h]⟩
  · intro i h
    refine ⟨by simp [repoAdd, h, Connection.execute], ?_⟩
    simp [UpdateDataFrame, h, pyOfId, List.getLast?]
  · cases hid : dto.id <;> simp [repoAdd, hid, Connection.execute]

/-- Witness for C6: a fresh DTO is inserted (statement appended, id
assigned), and the same DTO with id 7 is updated with args keyed on 7. -/
theorem claim_C6_witness :
    (dfDTO0.id = none) ∧
    ((repoAdd dfDTO0 1 connEmpty).2.executed = connEmpty.executed ++ [InsertDataFrame dfDTO0] ∧
     (∀ x, InsertDataFrame { dfDTO0 with id := x } = InsertDataFrame dfDTO0) ∧
     (repoAdd dfDTO0 1 connEmpty).1.id = some 1) ∧
    ({ dfDTO0 with id := some 7 }.id = some 7) ∧
    ((repoAdd { dfDTO0 with id := some 7 } 1 connEmpty).2.executed
        = connEmpty.executed ++ [UpdateDataFrame { dfDTO0 with id := some 7 }] ∧
     (UpdateDataFrame { dfDTO0 with id := some 7 }).args.getLast? = some (PyVal.vInt 7)) :=
  ⟨rfl,
   (claim_C6_add_insert_or_update dfDTO0 1 connEmpty).1 rfl,
   rfl,
   (claim_C6_add_insert_or_update { dfDTO0 with id := some 7 } 1 connEmpty).2.1 7 rfl⟩

/-- C7 counterexample: two statement objects produced by the provider
for the job table-existence check, differing only in the runtime MODE
environment value read at construction, carry different statement texts
— so the statement text is not a fixed template and a runtime value is
string-interpolated into it. -/
theorem claim_C7_counterexample :
    (JobTableExists "dev").sql ≠ (JobTableExists "prod").sql := by decide

/-- C7 (amended): for every statement constructor of the provider,
varying the DTO or key values changes only the args tuple, never the
sql text; the one runtime value that is string-interpolated into a
statement text is the MODE environment variable in JobTableExists,
whose args tuple is empty. -/
theorem claim_C7_amended_sql_text_fixed (d d2 : DataFrameDTO) (j j2 : JobDTO)
    (i i2 : Int) (nm nm2 md md2 m : String) :
    (InsertDataFrame d).sql = (InsertDataFrame d2).sql ∧
    (UpdateDataFrame d).sql = (UpdateDataFrame d2).sql ∧
    (SelectDataFrame i).sql = (SelectDataFrame i2).sql ∧
    (SelectDataFrameByParentId i).sql = (SelectDataFrameByParentId i2).sql ∧
    (SelectDataFrameByNameMode nm md).sql = (SelectDataFrameByNameMode nm2 md2).sql ∧
    (DataFrameExists i).sql = (DataFrameExists i2).sql ∧
    (DeleteDataFrame i).sql = (DeleteDataFrame i2).sql ∧
    (InsertJob j).sql = (InsertJob j2).sql ∧
    (UpdateJob j).sql = (UpdateJob j2).sql ∧
    (SelectJob i).sql = (SelectJob i2).sql ∧
    (SelectJobByName nm).sql = (SelectJobByName nm2).sql ∧
    (JobExists i).sql = (JobExists i2).sql ∧
    (DeleteJob i).sql = (DeleteJob i2).sql ∧
    (JobTableExists m).args = [] :=
  ⟨rfl, rfl, rfl, rfl, rfl, rfl, rfl, rfl, rfl, rfl, rfl, rfl, rfl, rfl⟩

theorem find?_append_of_none {β : Type} (p : β → Bool) (l1 l2 : List β)
    (h : l1.find? p = none) : (l1 ++ l2).find? p = l2.find? p := by
  induction l1 with
  | nil => rfl
  | cons a t ih =>
    have hpa : p a = false := by
      cases hpa : p a with
      | false => rfl
      | true => rw [List.find?_cons_of_pos _ hpa] at h; exact absurd h (by simp)
    rw [List.find?_cons_of_neg _ (by simp [hpa])] at h
    rw [List.cons_append, List.find?_cons_of_neg _ (by simp [hpa]), ih h]

theorem find?_updateRow (rows : List (Int × DataSourceDTO)) (i : Int)
    (row : DataSourceDTO) (h : ∃ p ∈ rows, p.1 = i) :
    ((rows.map (fun p => if p.1 = i then (i, row) else p)).find?
        (fun p => p.1 = i)) = some (i, row) := by
  induction rows with
  | nil => rcases h with ⟨p, hp, _⟩; simp at hp
  | cons q t ih =>
    by_cases hq : q.1 = i
    · simp [hq, List.find?]
    · have h2 : ∃ p ∈ t, p.1 = i := by
        rcases h with ⟨p, hp, hpi⟩
        rcases List.mem_cons.mp hp with rfl | hmem
        · exact absurd hpi hq
        · exact ⟨p, hmem, hpi⟩
      simpa [hq, List.find?] using ih h2

/-- C8: the round trip through the persistence boundary — add(e) then
get on the resulting id — yields an entity whose field-wise comparison
(DataSource.__eq__, which checks name, publisher, description, website
and url and ignores the server-assigned timestamps) with e holds; for a
fresh entity the insert assigns the id, and for an entity with an id
the update rewrites its existing row. -/
theorem claim_C8_roundtrip (e : DataSource) (st : DSStore) (now : Nat)
    (hfresh : ∀ p ∈ st.rows, p.1 < st.nextId) :
    (e.id = none →
      ∃ i, (dsAdd e st).1.id = some i ∧
        ∃ r, dsGet (dsAdd e st).2 i now = some r ∧ DataSource.eq r e = true) ∧
    (∀ i, e.id = some i → (∃ p ∈ st.rows, p.1 = i) →
      ∃ r, dsGet (dsAdd e st).2 i now = some r ∧ DataSource.eq r e = true) := by
  constructor
  · intro h
    refine ⟨st.nextId, by simp [dsAdd, h], ?_⟩
    have hnone : st.rows.find? (fun p => p.1 = st.nextId) = none := by
      rw [List.find?_eq_none]
      intro p hp
      have := hfresh p hp
      simp
      omega
    refine ⟨DataSource.from_dto (DataSource.as_dto { e with id := some st.nextId }) now, ?_, ?_⟩
    · simp only [dsAdd, h, dsGet]
      rw [find?_append_of_none _ _ _ hnone]
      simp [List.find?]
    · simp [DataSource.from_dto, DataSource.as_dto, DataSource.eq]
  · intro i h hrow
    refine ⟨DataSource.from_dto (DataSource.as_dto e) now, ?_, ?_⟩
    · simp only [dsAdd, h, dsGet, DSStore.updateRow]
      rw [find?_updateRow st.rows i (DataSource.as_dto e) hrow]
      rfl
    · simp [DataSource.from_dto, DataSource.as_dto, DataSource.eq]

/-- Witness for C8: a fresh datasource entity round-trips through an
empty store, and the same entity with id 1 round-trips through the
store that now holds its row. -/
theorem claim_C8_witness :
    (∀ p ∈ (⟨[], 1⟩ : DSStore).rows, p.1 < (⟨[], 1⟩ : DSStore).nextId) ∧
    ((⟨none, "movielens", none, "grouplens", "https://grouplens.org",
        "https://files.grouplens.org/ml-25m.zip", 0, 0⟩ : DataSource).id = none) ∧
    (∃ i, (dsAdd ⟨none, "movielens", none, "grouplens", "https://grouplens.org",
        "https://files.grouplens.org/ml-25m.zip", 0, 0⟩ ⟨[], 1⟩).1.id = some i ∧
      ∃ r, dsGet (dsAdd ⟨none, "movielens", none, "grouplens", "https://grouplens.org",
        "https://files.grouplens.org/ml-25m.zip", 0, 0⟩ ⟨[], 1⟩).2 i 9 = some r ∧
        DataSource.eq r ⟨none, "movielens", none, "grouplens", "https://grouplens.org",
        "https://files.grouplens.org/ml-25m.zip", 0, 0⟩ = true) :=
  ⟨by decide, rfl,
   (claim_C8_roundtrip _ ⟨[], 1⟩ 9 (by decide)).1 rfl⟩

theorem dictInsert_of_not_mem {τ : Type} (k : String) (v : τ)
    (ts : List (String × τ)) (h : k ∉ ts.map Prod.fst) :
    dictInsert k v ts = ts ++ [(k, v)] := by
  induction ts with
  | nil => rfl
  | cons q t ih =>
    simp only [List.map_cons, List.mem_cons] at h
    push_neg at h
    have hne : ¬ (q.1 = k) := fun he => h.1 he.symm
    simp only [dictInsert, if_neg hne, List.cons_append]
    rw [ih h.2]

theorem dictInsert_keys_of_mem {τ : Type} (k : String) (v : τ)
    (ts : List (String × τ)) (h : k ∈ ts.map Prod.fst) :
    (dictInsert k v ts).map Prod.fst = ts.map Prod.fst := by
  induction ts with
  | nil => simp at h
  | cons q t ih =>
    by_cases hq : q.1 = k
    · simp [dictInsert, hq]
    · simp only [List.map_cons, List.mem_cons] at h
      rcases h with h | h
      · exact absurd h.symm hq
      · simp [dictInsert, hq, ih h]

theorem dictInsert_find {τ : Type} (k : String) (v : τ) (ts : List (String × τ)) :
    (dictInsert k v ts).find? (fun p => p.1 = k) = some (k, v) := by
  induction ts with
  | nil => simp [dictInsert, List.find?]
  | cons q t ih =>
    by_cases hq : q.1 = k
    · simp [dictInsert, hq, List.find?]
    · simpa [dictInsert, hq, List.find?] using ih

theorem pipelineRun_trace {α υ : Type} (tasks : List (String × (Option α → υ → Option α)))
    (uow : υ) (d : Option α) : (pipelineRun tasks uow d).2 = tasks.map Prod.fst := by
  induction tasks generalizing d with
  | nil => rfl
  | cons t rest ih => simp [pipelineRun, ih]

theorem pipelineRun_append_one {α υ : Type}
    (tasks : List (String × (Option α → υ → Option α))) (uow : υ) (d : Option α)
    (n : String) (t : Option α → υ → Option α) :
    pipelineRun (tasks ++ [(n, t)]) uow d =
      ((match t (pipelineRun tasks uow d).1 uow with
        | none => (pipelineRun tasks uow d).1
        | some v => some v), (pipelineRun tasks uow d).2 ++ [n]) := by
  induction tasks generalizing d with
  | nil => simp [pipelineRun]
  | cons q rest ih => simp [pipelineRun, ih]

/-- C9: DataPipeline.run executes the tasks in exactly the order they
were added through add_task — a fresh name is appended at the end, a
repeated name replaces the task without changing the key order and is
the one found under that name — and threads data through them: the task
appended last receives the result accumulated by the tasks before it,
and a None (falsy) result leaves the data passed on unchanged. -/
theorem claim_C9_pipeline_order_and_threading {τ α υ : Type} (k : String) (v : τ)
    (ts : List (String × τ)) (tasks : List (String × (Option α → υ → Option α)))
    (uow : υ) (d : Option α) (n : String) (t : Option α → υ → Option α) :
    (k ∉ ts.map Prod.fst → dictInsert k v ts = ts ++ [(k, v)]) ∧
    (k ∈ ts.map Prod.fst →
      (dictInsert k v ts).map Prod.fst = ts.map Prod.fst) ∧
    ((dictInsert k v ts).find? (fun p => p.1 = k) = some (k, v)) ∧
    ((pipelineRun tasks uow d).2 = tasks.map Prod.fst) ∧
    ((pipelineRun (tasks ++ [(n, t)]) uow d).1 =
      match t (pipelineRun tasks uow d).1 uow with
      | none => (pipelineRun tasks uow d).1
      | some v2 => some v2) :=
  ⟨dictInsert_of_not_mem k v ts, dictInsert_keys_of_mem k v ts,
   dictInsert_find k v ts, pipelineRun_trace tasks uow d,
   by rw [pipelineRun_append_one]⟩

/-- Witness for C9: a two-task pipeline over Nat data — a fresh task
name appends at the end; re-adding an existing name keeps the key order;
the trace follows the dict order; a None-returning appended task leaves
the threaded data unchanged. -/
theorem claim_C9_witness :
    ("b" ∉ ([("a", 1)] : List (String × Nat)).map Prod.fst) ∧
    (dictInsert "b" 2 [("a", 1)] = [("a", 1)] ++ [("b", 2)]) ∧
    ("a" ∈ ([("a", 1)] : List (String × Nat)).map Prod.fst) ∧
    ((dictInsert "a" 3 [("a", 1)]).map Prod.fst = [("a", 1)].map Prod.fst) ∧
    ((pipelineRun ([("a", taskFive)] ++ [("b", taskNone)]) () (none : Option Nat)).1 =
      match taskNone (pipelineRun [("a", taskFive)] () (none : Option Nat)).1 () with
      | none => (pipelineRun [("a", taskFive)] () (none : Option Nat)).1
      | some v2 => some v2) :=
  ⟨by decide,
   (claim_C9_pipeline_order_and_threading "b" 2 [("a", 1)]
      ([] : List (String × (Option Nat → Unit → Option Nat))) () none "b"
      taskNone).1 (by decide),
   by decide,
   (claim_C9_pipeline_order_and_threading "a" 3 [("a", 1)]
      ([] : List (String × (Option Nat → Unit → Option Nat))) () none "b"
      taskNone).2.1 (by decide),
   (claim_C9_pipeline_order_and_threading "a" (3 : Nat) []
      [("a", taskFive)] () none "b" taskNone).2.2.2.2⟩

/-- C10: Sampler.execute with cluster sampling — frac equal to 1
returns the input DataFrame unchanged; frac above 1 raises ValueError
before any sampling; otherwise a missing cluster column raises
KeyError; and frac at or below 0 is not rejected by the guards: with
the column present the sampler proceeds and produces a result. -/
theorem claim_C10_sampler_cluster_guards (cluster_by : String) (frac : Rat)
    (choice : List PyVal → Int → List PyVal) (simpleSample : DF → DF) (data : DF) :
    (frac = 1 →
      samplerExecute true cluster_by frac choice simpleSample data = Except.ok data) ∧
    (1 < frac →
      samplerExecute true cluster_by frac choice simpleSample data
        = Except.error SamplerError.valueError) ∧
    (¬ frac = 1 → ¬ 1 < frac → getCol data cluster_by = none →
      samplerExecute true cluster_by frac choice simpleSample data
        = Except.error SamplerError.keyError) ∧
    (frac ≤ 0 → ∀ vs, getCol data cluster_by = some vs →
      ∃ out, samplerExecute true cluster_by frac choice simpleSample data
        = Except.ok out) := by
  refine ⟨?_, ?_, ?_, ?_⟩
  · intro h
    simp [samplerExecute, sampleByCluster, h]
  · intro h
    have h1 : ¬ frac = 1 := by
      intro he
      rw [he] at h
      exact lt_irrefl 1 h
    simp [samplerExecute, sampleByCluster, h1, h]
  · intro h1 h2 h3
    simp [samplerExecute, sampleByCluster, h1, h2, h3]
  · intro hle vs hcol
    have h1 : ¬ frac = 1 := by
      intro he
      rw [he] at hle
      norm_num at hle
    have h2 : ¬ 1 < frac := by
      intro hgt
      have : (0 : Rat) < 1 := by norm_num
      linarith
    cases hE : samplerExecute true cluster_by frac choice simpleSample data with
    | ok out => exact ⟨out, rfl⟩
    | error err =>
      exfalso
      simp only [samplerExecute, sampleByCluster, if_true, if_neg h1, if_neg h2,
        hcol] at hE
      exact Except.noConfusion hE

/-- Witness for C10 at concrete inputs: frac 1 leaves a one-column
frame unchanged; frac 2 yields ValueError; frac 1/2 on a frame without
the cluster column yields KeyError; frac 0 with the column present is
not rejected. -/
theorem claim_C10_witness :
    ((1 : Rat) = 1 ∧
      samplerExecute true "u" 1 (fun cs _ => cs) id [("u", [PyVal.vInt 1])]
        = Except.ok [("u", [PyVal.vInt 1])]) ∧
    ((1 : Rat) < 2 ∧
      samplerExecute true "u" 2 (fun cs _ => cs) id [("u", [PyVal.vInt 1])]
        = Except.error SamplerError.valueError) ∧
    (¬ (1 / 2 : Rat) = 1 ∧ ¬ (1 : Rat) < 1 / 2 ∧
      getCol [("v", [PyVal.vInt 1])] "u" = none ∧
      samplerExecute true "u" (1 / 2) (fun cs _ => cs) id [("v", [PyVal.vInt 1])]
        = Except.error SamplerError.keyError) ∧
    ((0 : Rat) ≤ 0 ∧ getCol [("u", [PyVal.vInt 1])] "u" = some [PyVal.vInt 1] ∧
      ∃ out, samplerExecute true "u" 0 (fun cs _ => cs) id [("u", [PyVal.vInt 1])]
        = Except.ok out) :=
  ⟨⟨by norm_num,
    (claim_C10_sampler_cluster_guards "u" 1 (fun cs _ => cs) id
      [("u", [PyVal.vInt 1])]).1 rfl⟩,
   ⟨by norm_num,
    (claim_C10_sampler_cluster_guards "u" 2 (fun cs _ => cs) id
      [("u", [PyVal.vInt 1])]).2.1 (by norm_num)⟩,
   ⟨by norm_num, by norm_num, by decide,
    (claim_C10_sampler_cluster_guards "u" (1 / 2) (fun cs _ => cs) id
      [("v", [PyVal.vInt 1])]).2.2.1 (by norm_num) (by norm_num) (by decide)⟩,
   ⟨by norm_num, by decide,
    (claim_C10_sampler_cluster_guards "u" 0 (fun cs _ => cs) id
      [("u", [PyVal.vInt 1])]).2.2.2 (by norm_num) [PyVal.vInt 1] (by decide)⟩⟩

end Recsys
